import Mathlib

/-!
Verification of `check-tx.py`, a one-shot CLI that checks whether a Neon
transaction hash is known to a set of operator RPC endpoints and, for failed
transactions, cross-references the failure against Solana to extract log-based
failure reasons.

The script is embedded shallowly: network responses become oracle functions in
an environment record, console output becomes a list of output events, file
writes become a list of (filename, content) pairs, and `exit(1)` / uncaught
exceptions become explicit result fields.
-/

namespace CheckTx

/-- Value of one hex digit, by code point: digits are 48-57, lowercase
`a`-`f` are 97-102, uppercase `A`-`F` are 65-70. -/
def hexDigitVal? (c : Char) : Option Nat :=
  let n := c.toNat
  if 48 ≤ n && n ≤ 57 then some (n - 48)
  else if 97 ≤ n && n ≤ 102 then some (n - 87)
  else if 65 ≤ n && n ≤ 70 then some (n - 55)
  else none

/-- A hexadecimal digit, as accepted by the regex `[0-9a-fA-F]`. -/
def isHexDigitChar (c : Char) : Bool :=
  (hexDigitVal? c).isSome

/-- Drop an optional `0x` / `0X` marker, as the regex `(0[xX])?` of
`eth_utils.is_hex` and Python's `int(s, 16)` both allow. -/
def dropHexMarker (cs : List Char) : List Char :=
  match cs with
  | '0' :: 'x' :: rest => rest
  | '0' :: 'X' :: rest => rest
  | _ => cs

/-- The predicate `eth_utils.is_hex`: a non-empty string fully matching
`(0[xX])?[0-9a-fA-F]*`.
(The optional-marker branch of the regex is unambiguous: `x`/`X` is never a hex
digit, so greedy marker stripping is equivalent to the regex.) -/
def is_hex (s : String) : Bool :=
  !s.data.isEmpty && (dropHexMarker s.data).all isHexDigitChar

/-- The hash validation performed by `__main__` (line 107):
`is_hex(args.tx_hash) and len(args.tx_hash) == 66`. -/
def validTxHash (s : String) : Bool :=
  is_hex s && s.length == 66

/-- The pattern named by the specification: `^0x[0-9a-fA-F]{64}$` — a literal
`0x` marker followed by exactly 64 hex digits. -/
def specHashPattern (s : String) : Bool :=
  s.data.take 2 == ['0', 'x'] && (s.data.drop 2).length == 64
    && (s.data.drop 2).all isHexDigitChar

/-- Python `int(s, 16)` on the strings of interest: an optional `0x`/`0X`
marker followed by at least one hex digit; `none` models a raised
`ValueError`. -/
def hexToNat? (s : String) : Option Nat :=
  let cs := dropHexMarker s.data
  if cs.isEmpty then none
  else cs.foldl (fun acc c => acc.bind fun a => (hexDigitVal? c).map fun d => a * 16 + d)
    (some 0)

/-- Rounding to two decimal places, as the `:.2f` format specifier displays the
gas-efficiency percentage (rounding to the nearest hundredth). -/
def round2 (q : ℚ) : ℚ :=
  (Rat.floor (q * 100 + 1 / 2) : ℚ) / 100

/-- Python truthiness of a string: non-empty strings are truthy. -/
def pyStrTruthy (s : String) : Bool :=
  !s.isEmpty

/-- One entry of the extended receipt's `solanaTransactions` list. -/
structure SolanaTx where
  solanaTransactionIsSuccess : Bool
  solanaTransactionSignature : String
deriving DecidableEq

/-- The `result` object of a `neon_getTransactionReceipt` response. -/
structure ExtReceipt where
  status : String
  gasUsed : String
  solanaTransactions : List SolanaTx
deriving DecidableEq

/-- Console output events of `debug_transaction`, one per `print` call. -/
inductive Line where
  | problemWithTxInfo
  | statusLine (status : String)
  | gasLine (gas gasUsed : Nat) (pct : ℚ)
  | solanaTxCount (n : Nat)
  | noFailedSolanaTxFound (txHash : String)
  | solanaFailedCount (n : Nat)
  | failedSolanaTx (sig : String)
  | reasonsHeader
  | reasonLine (sig reason : String)
  | fullLogSaved
deriving DecidableEq

/-- Uncaught Python exceptions in `debug_transaction`. -/
inductive DebugErr where
  | badGasUsedHex
  | divisionByZero
  | emptyLogsIndexError
deriving DecidableEq

/-- Oracle environment for one `debug_transaction` call: the
`neon_getTransactionReceipt` result (`none` models a JSON body without a
`result` field), the `gas` field of `w3.eth.get_transaction`, and the Solana
`get_transaction` lookup (`some logs` models a response whose `value` is
present with the given `log_messages`; `none` models a missing value). -/
structure DebugEnv where
  extReceipt : Option ExtReceipt
  txGas : Nat
  solanaLookup : String → Option (List String)

/-- How the per-signature loop of `debug_transaction` (lines 58-69) ended. -/
inductive LoopExit where
  | completed
  | earlyReturn
  | emptyLogsCrash
deriving DecidableEq

/-- Accumulated effects of the per-signature loop: Solana lookups performed (in
order), the `reasons` mapping (insertion order), and files written as
(filename, content) pairs. -/
structure LoopResult where
  lookups : List String
  reasons : List (String × String)
  files : List (String × String)
  exit : LoopExit
deriving DecidableEq

/-- Signatures of the sub-transactions flagged unsuccessful, in receipt order
(lines 50-52: `if sol_tx["solanaTransactionIsSuccess"] is False`). -/
def failedSigs (r : ExtReceipt) : List String :=
  (r.solanaTransactions.filter fun t => t.solanaTransactionIsSuccess == false).map
    fun t => t.solanaTransactionSignature

/-- The loop `for failed_sol_tx in failed_sol_tx:` (lines 58-69). Each
iteration queries Solana; a missing value prints and returns early
(lines 60-62); `logs[-1]` on empty logs raises `IndexError` (line 65) before
the file write; otherwise the reason is recorded and `"\n".join(logs)` is
written to `logs/<signature>.log`. -/
def debugLoop (lookup : String → Option (List String)) :
    List String → LoopResult
  | [] => ⟨[], [], [], .completed⟩
  | sig :: rest =>
    match lookup sig with
    | none => ⟨[sig], [], [], .earlyReturn⟩
    | some logs =>
      match logs.getLast? with
      | none => ⟨[sig], [], [], .emptyLogsCrash⟩
      | some reason =>
        let r := debugLoop lookup rest
        ⟨sig :: r.lookups, (sig, reason) :: r.reasons,
          ("logs/" ++ sig ++ ".log", String.intercalate "\n" logs) :: r.files, r.exit⟩

/-- Observable result of one `debug_transaction` call. -/
structure DebugResult where
  printed : List Line
  lookups : List String
  reasons : List (String × String)
  files : List (String × String)
  error : Option DebugErr
deriving DecidableEq

/-- The function `debug_transaction(tx_hash, operator_url, solana_url)`
(lines 23-75),
with the two URLs abstracted into the oracle environment. Mirrors the source
line by line: missing `result` field prints and returns; `status` is
`"Failed"` iff the status field equals `"0x0"`; `gas_used` is parsed from hex;
the gas line divides by `gas` (raising `ZeroDivisionError` when it is zero,
after the status line is printed); success returns after the three report
lines; failed status filters the flagged sub-transactions, reporting an
inconsistency when none is found; otherwise the per-signature loop runs and
the final report reuses the leaked loop variable, naming only the last
failed signature. -/
def debug_transaction (tx_hash : String) (env : DebugEnv) : DebugResult :=
  match env.extReceipt with
  | none => ⟨[.problemWithTxInfo], [], [], [], none⟩
  | some tx_info =>
    let status := if tx_info.status == "0x0" then "Failed" else "Success"
    let gas := env.txGas
    match hexToNat? tx_info.gasUsed with
    | none => ⟨[], [], [], [], some .badGasUsedHex⟩
    | some gas_used =>
      let solana_txs := tx_info.solanaTransactions.length
      if gas == 0 then
        ⟨[.statusLine status], [], [], [], some .divisionByZero⟩
      else
        let header : List Line :=
          [.statusLine status,
           .gasLine gas gas_used (round2 ((gas_used : ℚ) / (gas : ℚ) * 100)),
           .solanaTxCount solana_txs]
        if status == "Success" then
          ⟨header, [], [], [], none⟩
        else
          let failed_sol_tx := failedSigs tx_info
          if failed_sol_tx.length == 0 then
            ⟨header ++ [.noFailedSolanaTxFound tx_hash], [], [], [], none⟩
          else
            let r := debugLoop env.solanaLookup failed_sol_tx
            let pre := header ++ [Line.solanaFailedCount failed_sol_tx.length]
            match r.exit with
            | .earlyReturn =>
              ⟨pre ++ [.noFailedSolanaTxFound tx_hash], r.lookups, r.reasons, r.files, none⟩
            | .emptyLogsCrash =>
              ⟨pre, r.lookups, r.reasons, r.files, some .emptyLogsIndexError⟩
            | .completed =>
              ⟨pre ++ [.failedSolanaTx (failed_sol_tx.getLast?.getD "")]
                ++ [.reasonsHeader]
                ++ r.reasons.map (fun p => Line.reasonLine p.1 p.2)
                ++ [.fullLogSaved],
               r.lookups, r.reasons, r.files, none⟩

/-- The `config.toml` contents: insertion-ordered `rpc` and `solana` sections,
each mapping a network name to an endpoint URL (dict keys, hence unique in any
real configuration). -/
structure Config where
  rpc : List (String × String)
  solana : List (String × String)

/-- Parsed command-line arguments. -/
structure Args where
  network : String
  tx_hash : String
  logs : Bool

/-- Oracle environment for the whole run: per-URL results of
`check_tx_exist` / `check_receipt_exist`, and the environment of the final
`debug_transaction` call. -/
structure MainEnv where
  txExists : String → Bool
  receiptExists : String → Bool
  debugEnv : DebugEnv

/-- Network calls issued by the run, in order. The two existence checks hit
the given operator URL; the debug call hits the chosen operator URL and the
chosen Solana URL. -/
inductive NetCall where
  | txExist (url : String)
  | receiptExist (url : String)
  | debugCall (operatorUrl solanaUrl : String)
deriving DecidableEq

/-- Python dict indexing `d[k]` on an insertion-ordered association list
(keys unique in a dict, so the first match is the only match). -/
def lookupKey (l : List (String × String)) (k : String) : Option String :=
  (l.find? fun p => p.1 == k).map fun p => p.2

/-- Observable result of the `__main__` block. -/
structure MainResult where
  exitCode : Nat
  calls : List NetCall
  messages : List String
  txLines : List (String × String)
  receiptLines : List (String × String)
  transaction_operator : Option String
  receipt_operator : Option String
  debug : Option DebugResult
deriving DecidableEq

/-- The `__main__` block (lines 78-158). In order: the `--network` key is
looked up in the `solana` config section (exit 1 on miss, line 103); the hash
is validated with `is_hex` and a length-66 check (exit 1 on failure, printing
the hash and a diagnostic, lines 107-110); the transaction-existence loop
prints one line per endpoint and overwrites `transaction_operator` on every
hit (lines 118-125); the receipt loop does the same for `receipt_operator`,
except its printed result is re-assigned from the truthiness of an already
non-empty string (line 141); finally `debug_transaction` is called with the
URL of the endpoint recorded in `receipt_operator` and the selected Solana
URL (line 150). An uncaught exception inside the debug call makes the
interpreter exit non-zero. -/
def main_run (config : Config) (args : Args) (env : MainEnv) : MainResult :=
  if (lookupKey config.solana args.network).isNone then
    ⟨1, [], ["Network not found"], [], [], none, none, none⟩
  else if !validTxHash args.tx_hash then
    ⟨1, [], [args.tx_hash, "Invalid transaction hash"], [], [], none, none, none⟩
  else
    let txCalls := config.rpc.map fun p => NetCall.txExist p.2
    let txLines := config.rpc.map fun p =>
      (p.1, if env.txExists p.2 then "Exist" else "Not exist")
    let transaction_operator :=
      config.rpc.foldl (fun acc p => if env.txExists p.2 then some p.1 else acc) none
    match transaction_operator with
    | none =>
      ⟨1, txCalls, ["Transaction not found in operators"], txLines, [], none, none, none⟩
    | some txop =>
      let receiptCalls := config.rpc.map fun p => NetCall.receiptExist p.2
      let receiptLines := config.rpc.map fun p =>
        let result := if env.receiptExists p.2 then "Exist" else "Not exist"
        let result := if pyStrTruthy result then "Exist" else "Not exist"
        (p.1, result)
      let receipt_operator :=
        config.rpc.foldl (fun acc p => if env.receiptExists p.2 then some p.1 else acc) none
      match receipt_operator with
      | none =>
        ⟨1, txCalls ++ receiptCalls, ["Receipt not found in operators"], txLines, receiptLines,
          some txop, none, none⟩
      | some rop =>
        let operatorUrl := (lookupKey config.rpc rop).getD ""
        let solanaUrl := (lookupKey config.solana args.network).getD ""
        let dres := debug_transaction args.tx_hash env.debugEnv
        ⟨if dres.error.isSome then 1 else 0,
          txCalls ++ receiptCalls ++ [NetCall.debugCall operatorUrl solanaUrl],
          [], txLines, receiptLines, some txop, some rop, some dres⟩

/-- The signatures named by `Failed Solana transaction:` report lines, in
print order. -/
def failedTxReportSigs (res : DebugResult) : List String :=
  res.printed.filterMap fun l =>
    match l with
    | .failedSolanaTx s => some s
    | _ => none

/-! Sample inputs used to instantiate the theorems below at concrete data. -/

/-- Failed extended receipt with two unsuccessful sub-transactions. -/
def rSample : ExtReceipt := ⟨"0x0", "0x5", [⟨false, "A"⟩, ⟨false, "B"⟩]⟩

/-- Solana lookup oracle with data for signatures `A` and `B`. -/
def lookupSample : String → Option (List String) := fun s =>
  if s == "A" then some ["logA1", "logA2"] else if s == "B" then some ["logB1"] else none

/-- Debug environment around `rSample`. -/
def envSample : DebugEnv := ⟨some rSample, 10, lookupSample⟩

/-- Successful extended receipt. -/
def rSuccess : ExtReceipt := ⟨"0x1", "0x5", [⟨true, "A"⟩]⟩

/-- Debug environment around `rSuccess`. -/
def envSuccess : DebugEnv := ⟨some rSuccess, 10, fun _ => none⟩

/-- Failed extended receipt whose only sub-transaction is flagged successful. -/
def rNoFailed : ExtReceipt := ⟨"0x0", "0x5", [⟨true, "A"⟩]⟩

/-- Debug environment around `rNoFailed`. -/
def envNoFailed : DebugEnv := ⟨some rNoFailed, 10, fun _ => none⟩

/-- Debug environment whose transaction reports a zero gas estimate. -/
def envZeroGas : DebugEnv := ⟨some rSample, 0, lookupSample⟩

/-- Debug environment whose RPC response has no `result` field. -/
def envNoResult : DebugEnv := ⟨none, 0, fun _ => none⟩

/-! Helper lemmas. -/

/-- When every signature's Solana lookup returns data with at least one log
line, the per-signature loop completes, querying each signature once, pairing
it with its last log line, and writing its newline-joined logs. -/
lemma debugLoop_all_some (lookup : String → Option (List String)) (sigs : List String)
    (h : ∀ s ∈ sigs, ∃ logs, lookup s = some logs ∧ logs ≠ []) :
    debugLoop lookup sigs =
      ⟨sigs,
       sigs.map fun s => (s, ((lookup s).getD []).getLast?.getD ""),
       sigs.map fun s => ("logs/" ++ s ++ ".log", String.intercalate "\n" ((lookup s).getD [])),
       .completed⟩ := by
  induction sigs with
  | nil => rfl
  | cons s rest ih =>
    obtain ⟨logs, hl, hne⟩ := h s (List.mem_cons_self s rest)
    obtain ⟨a, ha⟩ : ∃ a, logs.getLast? = some a := by
      cases hg : logs.getLast? with
      | none => exact absurd (List.getLast?_eq_none_iff.mp hg) hne
      | some a => exact ⟨a, rfl⟩
    have hrest := ih fun t ht => h t (List.mem_cons_of_mem s ht)
    simp [debugLoop, hl, ha, hrest]

/-- A fold that overwrites its accumulator on every match computes the last
matching element (the pattern of the operator loops in `__main__`). -/
lemma foldl_overwrite (P : String × String → Bool) (l : List (String × String))
    (init : Option String) :
    l.foldl (fun acc p => if P p then some p.1 else acc) init
      = ((l.filter P).getLast?).elim init (fun p => some p.1) := by
  induction l generalizing init with
  | nil => rfl
  | cons a t ih =>
    rw [List.foldl_cons, ih, List.filter_cons]
    by_cases hP : P a
    · simp only [hP, if_true]
      cases hl : (t.filter P).getLast? with
      | none =>
        have he : t.filter P = [] := List.getLast?_eq_none_iff.mp hl
        simp [he]
      | some p =>
        obtain ⟨b, l2, hbl⟩ : ∃ b l2, t.filter P = b :: l2 := by
          cases hfe : t.filter P with
          | nil => rw [hfe] at hl; simp at hl
          | cons b l2 => exact ⟨b, l2, rfl⟩
        rw [hbl] at hl
        rw [hbl, List.getLast?_cons_cons, hl]
        rfl
    · simp [hP]

/-- An element satisfying the predicate forces the overwriting fold to end on
the last matching element. -/
lemma foldl_overwrite_of_exists (P : String × String → Bool) (l : List (String × String))
    (h : ∃ p ∈ l, P p = true) :
    ∃ q, (l.filter P).getLast? = some q ∧
      l.foldl (fun acc p => if P p then some p.1 else acc) none = some q.1 := by
  have hne : l.filter P ≠ [] := by
    intro he
    obtain ⟨p, hp, hPp⟩ := h
    exact absurd hPp (by simpa using (List.filter_eq_nil_iff.mp he) p hp)
  obtain ⟨q, hq⟩ := Option.isSome_iff_exists.mp (List.getLast?_isSome.mpr hne)
  exact ⟨q, hq, by rw [foldl_overwrite, hq]; rfl⟩

/-- On an association list with unique keys, `find?` by key locates exactly
the member with that key (Python dict indexing). -/
lemma find?_eq_of_nodup_keys (l : List (String × String)) (n u : String)
    (hnd : (l.map Prod.fst).Nodup) (hmem : (n, u) ∈ l) :
    l.find? (fun p => p.1 == n) = some (n, u) := by
  induction l with
  | nil => cases hmem
  | cons a t ih =>
    rcases List.mem_cons.mp hmem with heq | hmem2
    · subst heq
      simp [List.find?]
    · have hkey : (a.1 == n) = false := by
        rw [beq_eq_false_iff_ne]
        intro hteq
        have hn : n ∈ t.map Prod.fst := List.mem_map.mpr ⟨(n, u), hmem2, rfl⟩
        exact (List.nodup_cons.mp hnd).1 (hteq ▸ hn)
      rw [List.find?]
      rw [hkey]
      exact ih (List.nodup_cons.mp hnd).2 hmem2

/-! Claims about `debug_transaction`. -/

/-- C6: if the extended-receipt RPC response lacks the `result` field, the
debugger prints a diagnostic about the malformed response and returns without
crashing, performing no further lookups or writes. -/
theorem C6_missing_result_graceful (tx_hash : String) (env : DebugEnv)
    (h : env.extReceipt = none) :
    debug_transaction tx_hash env = ⟨[Line.problemWithTxInfo], [], [], [], none⟩ := by
  simp [debug_transaction, h]

/-- C6 witness: instantiation at a concrete environment with no `result`
field. -/
theorem C6_missing_result_graceful_witness :
    envNoResult.extReceipt = none ∧
    debug_transaction "0x" envNoResult = ⟨[Line.problemWithTxInfo], [], [], [], none⟩ :=
  ⟨rfl, C6_missing_result_graceful "0x" envNoResult rfl⟩

/-- C4: if the extended receipt reports success status, the debugger returns
immediately after printing the top-level report (status, gas, sub-transaction
count): no settlement-chain lookup and no log-file write occurs. -/
theorem C4_success_short_circuits (tx_hash : String) (env : DebugEnv) (r : ExtReceipt)
    (gu : Nat) (h1 : env.extReceipt = some r) (h2 : r.status ≠ "0x0")
    (h3 : hexToNat? r.gasUsed = some gu) (h4 : env.txGas ≠ 0) :
    debug_transaction tx_hash env =
      ⟨[Line.statusLine "Success",
        Line.gasLine env.txGas gu (round2 ((gu : ℚ) / (env.txGas : ℚ) * 100)),
        Line.solanaTxCount r.solanaTransactions.length], [], [], [], none⟩ := by
  have hs : (r.status == "0x0") = false := beq_eq_false_iff_ne.mpr h2
  have hg : (env.txGas == 0) = false := beq_eq_false_iff_ne.mpr h4
  simp [debug_transaction, h1, h3, hs, hg]

/-- C4 witness: instantiation at a concrete successful receipt. -/
theorem C4_success_short_circuits_witness :
    envSuccess.extReceipt = some rSuccess ∧ rSuccess.status ≠ "0x0" ∧
    hexToNat? rSuccess.gasUsed = some 5 ∧ envSuccess.txGas ≠ 0 ∧
    debug_transaction "0xw" envSuccess =
      ⟨[Line.statusLine "Success",
        Line.gasLine envSuccess.txGas 5 (round2 (((5 : Nat) : ℚ) / (envSuccess.txGas : ℚ) * 100)),
        Line.solanaTxCount rSuccess.solanaTransactions.length], [], [], [], none⟩ :=
  ⟨rfl, by decide, by decide, by decide,
    C4_success_short_circuits "0xw" envSuccess rSuccess 5 rfl (by decide) (by decide) (by decide)⟩

/-- C7: if the extended receipt reports failed status but no sub-transaction
is flagged unsuccessful, the debugger prints an inconsistency diagnostic and
stops: no settlement-chain lookup and no log file is produced. -/
theorem C7_failed_without_flagged_subtx (tx_hash : String) (env : DebugEnv) (r : ExtReceipt)
    (gu : Nat) (h1 : env.extReceipt = some r) (h2 : r.status = "0x0")
    (h3 : hexToNat? r.gasUsed = some gu) (h4 : env.txGas ≠ 0)
    (h5 : failedSigs r = []) :
    debug_transaction tx_hash env =
      ⟨[Line.statusLine "Failed",
        Line.gasLine env.txGas gu (round2 ((gu : ℚ) / (env.txGas : ℚ) * 100)),
        Line.solanaTxCount r.solanaTransactions.length,
        Line.noFailedSolanaTxFound tx_hash], [], [], [], none⟩ := by
  have hg : (env.txGas == 0) = false := beq_eq_false_iff_ne.mpr h4
  simp [debug_transaction, h1, h2, h3, hg, h5]

/-- C7 witness: instantiation at a failed receipt whose sub-transactions are
all flagged successful. -/
theorem C7_failed_without_flagged_subtx_witness :
    envNoFailed.extReceipt = some rNoFailed ∧ rNoFailed.status = "0x0" ∧
    hexToNat? rNoFailed.gasUsed = some 5 ∧ envNoFailed.txGas ≠ 0 ∧
    failedSigs rNoFailed = [] ∧
    debug_transaction "0xw7" envNoFailed =
      ⟨[Line.statusLine "Failed",
        Line.gasLine envNoFailed.txGas 5 (round2 (((5 : Nat) : ℚ) / (envNoFailed.txGas : ℚ) * 100)),
        Line.solanaTxCount rNoFailed.solanaTransactions.length,
        Line.noFailedSolanaTxFound "0xw7"], [], [], [], none⟩ :=
  ⟨rfl, rfl, by decide, by decide, by decide,
    C7_failed_without_flagged_subtx "0xw7" envNoFailed rNoFailed 5 rfl rfl (by decide)
      (by decide) (by decide)⟩

/-- C10: the gas-efficiency computation divides by the transaction's gas
estimate without a guard: past the malformed-response check, a zero gas field
raises `ZeroDivisionError` (after only the status line is printed, with no
lookup, write, or report), and the division is well-defined only under the
precondition that the gas estimate is non-zero — with a non-zero estimate the
division error can never occur. -/
theorem C10_unguarded_division (tx_hash : String) (env : DebugEnv) (r : ExtReceipt)
    (gu : Nat) (h1 : env.extReceipt = some r) (h2 : hexToNat? r.gasUsed = some gu) :
    (env.txGas = 0 →
      debug_transaction tx_hash env =
        ⟨[Line.statusLine (if r.status == "0x0" then "Failed" else "Success")], [], [], [],
          some DebugErr.divisionByZero⟩) ∧
    (env.txGas ≠ 0 → (debug_transaction tx_hash env).error ≠ some DebugErr.divisionByZero) := by
  constructor
  · intro hz
    simp [debug_transaction, h1, h2, hz]
  · intro hnz
    have hg : (env.txGas == 0) = false := beq_eq_false_iff_ne.mpr hnz
    simp only [debug_transaction, h1, h2, hg, Bool.false_eq_true, if_false]
    repeat' split
    all_goals simp_all

/-- C10 witness: instantiation at a concrete receipt with a zero gas
estimate. -/
theorem C10_unguarded_division_witness :
    envZeroGas.extReceipt = some rSample ∧ hexToNat? rSample.gasUsed = some 5 ∧
    envZeroGas.txGas = 0 ∧
    debug_transaction "0xwz" envZeroGas =
      ⟨[Line.statusLine (if rSample.status == "0x0" then "Failed" else "Success")], [], [], [],
        some DebugErr.divisionByZero⟩ :=
  ⟨rfl, by decide, rfl,
    (C10_unguarded_division "0xwz" envZeroGas rSample 5 rfl (by decide)).1 rfl⟩

/-- C5: the displayed gas-efficiency percentage equals gas_used divided by
gas_estimate, multiplied by 100 and rounded to two decimal places, where
gas_used is parsed from the receipt's hex `gasUsed` field and gas_estimate is
the `gas` field of the primary-chain transaction. -/
theorem C5_gas_efficiency_formula (tx_hash : String) (env : DebugEnv) (r : ExtReceipt)
    (gu : Nat) (h1 : env.extReceipt = some r) (h2 : hexToNat? r.gasUsed = some gu)
    (h3 : env.txGas ≠ 0) :
    Line.gasLine env.txGas gu (round2 ((gu : ℚ) / (env.txGas : ℚ) * 100))
      ∈ (debug_transaction tx_hash env).printed := by
  have hg : (env.txGas == 0) = false := beq_eq_false_iff_ne.mpr h3
  simp only [debug_transaction, h1, h2, hg, Bool.false_eq_true, if_false]
  repeat' split
  all_goals simp_all

/-- C5 witness: instantiation at a concrete receipt (gas used 5 of 10
estimated). -/
theorem C5_gas_efficiency_formula_witness :
    envSample.extReceipt = some rSample ∧ hexToNat? rSample.gasUsed = some 5 ∧
    envSample.txGas ≠ 0 ∧
    Line.gasLine envSample.txGas 5 (round2 (((5 : Nat) : ℚ) / (envSample.txGas : ℚ) * 100))
      ∈ (debug_transaction "0xw5" envSample).printed :=
  ⟨rfl, by decide, by decide,
    C5_gas_efficiency_formula "0xw5" envSample rSample 5 rfl (by decide) (by decide)⟩

/-- C3: for a failed extended receipt whose N flagged sub-transactions all
have retrievable logs, exactly N settlement-chain lookups are performed (one
per signature, in order) and exactly N log files are written, the file for a
signature holding its log lines joined by newline, and the reported reason
for each signature being the last of those log lines. -/
theorem C3_failed_subtx_processing (tx_hash : String) (env : DebugEnv) (r : ExtReceipt)
    (gu : Nat) (h1 : env.extReceipt = some r) (h2 : r.status = "0x0")
    (h3 : hexToNat? r.gasUsed = some gu) (h4 : env.txGas ≠ 0)
    (h5 : ∀ s ∈ failedSigs r, ∃ logs, env.solanaLookup s = some logs ∧ logs ≠ []) :
    (debug_transaction tx_hash env).lookups = failedSigs r ∧
    (debug_transaction tx_hash env).files =
      ((failedSigs r).map fun s =>
        ("logs/" ++ s ++ ".log", String.intercalate "\n" ((env.solanaLookup s).getD []))) ∧
    (debug_transaction tx_hash env).reasons =
      ((failedSigs r).map fun s => (s, ((env.solanaLookup s).getD []).getLast?.getD "")) ∧
    (debug_transaction tx_hash env).lookups.length = (failedSigs r).length ∧
    (debug_transaction tx_hash env).files.length = (failedSigs r).length := by
  have hg : (env.txGas == 0) = false := beq_eq_false_iff_ne.mpr h4
  have hloop := debugLoop_all_some env.solanaLookup (failedSigs r) h5
  by_cases he : failedSigs r = []
  · simp [debug_transaction, h1, h2, h3, hg, he]
  · have hlen : ((failedSigs r).length == 0) = false := by
      rw [beq_eq_false_iff_ne]
      simpa using he
    simp [debug_transaction, h1, h2, h3, hg, hlen, hloop]

/-- C3 witness: instantiation at a failed receipt with two flagged
sub-transactions, both with logs. -/
theorem C3_failed_subtx_processing_witness :
    envSample.extReceipt = some rSample ∧ rSample.status = "0x0" ∧
    hexToNat? rSample.gasUsed = some 5 ∧ envSample.txGas ≠ 0 ∧
    (∀ s ∈ failedSigs rSample, ∃ logs, envSample.solanaLookup s = some logs ∧ logs ≠ []) ∧
    ((debug_transaction "0xw3" envSample).lookups = failedSigs rSample ∧
     (debug_transaction "0xw3" envSample).files =
       ((failedSigs rSample).map fun s =>
         ("logs/" ++ s ++ ".log", String.intercalate "\n" ((envSample.solanaLookup s).getD []))) ∧
     (debug_transaction "0xw3" envSample).reasons =
       ((failedSigs rSample).map fun s =>
         (s, ((envSample.solanaLookup s).getD []).getLast?.getD "")) ∧
     (debug_transaction "0xw3" envSample).lookups.length = (failedSigs rSample).length ∧
     (debug_transaction "0xw3" envSample).files.length = (failedSigs rSample).length) := by
  refine ⟨rfl, rfl, by decide, by decide, ?_, ?_⟩
  · intro s hs
    have hs2 : s = "A" ∨ s = "B" := by
      have : failedSigs rSample = ["A", "B"] := by decide
      rw [this] at hs
      simpa using hs
    rcases hs2 with rfl | rfl
    · exact ⟨["logA1", "logA2"], rfl, by decide⟩
    · exact ⟨["logB1"], rfl, by decide⟩
  · refine C3_failed_subtx_processing "0xw3" envSample rSample 5 rfl rfl (by decide)
      (by decide) ?_
    intro s hs
    have hs2 : s = "A" ∨ s = "B" := by
      have : failedSigs rSample = ["A", "B"] := by decide
      rw [this] at hs
      simpa using hs
    rcases hs2 with rfl | rfl
    · exact ⟨["logA1", "logA2"], rfl, by decide⟩
    · exact ⟨["logB1"], rfl, by decide⟩

/-- C8: the receipt `rSample` has two failed sub-transactions `A` and `B`,
yet the final `Failed Solana transaction:` report line of the code names only
the last one, `B` — the loop variable leaked out of the loop — where the
specification's intent is that this line name all failed sub-transactions
found. -/
theorem C8_report_line_names_only_last :
    failedSigs rSample = ["A", "B"] ∧
    failedTxReportSigs (debug_transaction "0xw8" envSample) = ["B"] := by
  constructor
  · decide
  · decide

/-! Claims about the `__main__` flow. -/

/-- A transaction hash matching the specification's pattern. -/
def sampleHash : String :=
  "0xffffffffffffffffffffffffffffffffffffffffffffffffffffffffffffffff"

/-- Sixty-six bare hex digits: accepted by `eth_utils.is_hex` with length 66,
yet not
matching `^0x[0-9a-fA-F]{64}$`. -/
def bareHexHash : String :=
  "ffffffffffffffffffffffffffffffffffffffffffffffffffffffffffffffffff"

/-- Configuration with two operator endpoints. -/
def cfgTwoOps : Config := ⟨[("op1", "u1"), ("op2", "u2")], [("mainnet", "sol")]⟩

/-- Configuration with one operator endpoint. -/
def cfgOneOp : Config := ⟨[("op", "u")], [("mainnet", "sol")]⟩

/-- Arguments with a pattern-conforming hash on the default network. -/
def argsValid : Args := ⟨"mainnet", sampleHash, false⟩

/-- Environment where every endpoint knows the transaction and its receipt. -/
def envAllExist : MainEnv := ⟨fun _ => true, fun _ => true, envNoResult⟩

/-- Environment where no endpoint knows the transaction. -/
def envNoneExist : MainEnv := ⟨fun _ => false, fun _ => false, envNoResult⟩

/-- Environment where endpoints know the transaction but not the receipt. -/
def envTxOnly : MainEnv := ⟨fun _ => true, fun _ => false, envNoResult⟩

/-- An option known to be `some` is not `none`. -/
lemma isNone_false_of_isSome {α : Type} (o : Option α) (h : o.isSome = true) :
    o.isNone = false := by
  cases o <;> simp_all

/-- Every string matching the specification's pattern passes the script's
`is_hex`-and-length-66 validation. -/
lemma validTxHash_of_specPattern (s : String) (h : specHashPattern s = true) :
    validTxHash s = true := by
  unfold specHashPattern at h
  simp only [Bool.and_eq_true, beq_iff_eq] at h
  obtain ⟨⟨htake, hdlen⟩, hall⟩ := h
  generalize hr : s.data.drop 2 = rest at hdlen hall
  have hdata : s.data = '0' :: 'x' :: rest := by
    conv_lhs => rw [← List.take_append_drop 2 s.data, htake, hr]
    rfl
  have hlen : s.length = 66 := by
    show s.data.length = 66
    rw [hdata]
    simp [hdlen]
  simp [validTxHash, is_hex, hdata, dropHexMarker, hall, hlen]

/-- C1 counterexample: 66 bare hex digits do not match `^0x[0-9a-fA-F]{64}$`,
yet the run does not print a validation error — it proceeds to a network
call and fails later with the not-found diagnostic. -/
theorem C1_counterexample_bare_hex :
    specHashPattern bareHexHash = false ∧
    validTxHash bareHexHash = true ∧
    (main_run cfgOneOp ⟨"mainnet", bareHexHash, false⟩ envNoneExist).messages
      = ["Transaction not found in operators"] ∧
    (main_run cfgOneOp ⟨"mainnet", bareHexHash, false⟩ envNoneExist).calls
      = [NetCall.txExist "u"] :=
  ⟨by decide, by decide, by decide, by decide⟩

/-- C1 (amended): with the selected network configured, every hash rejected
by the `is_hex`-and-length-66 validation makes the run print the hash and a
validation error and exit with code 1 before any network call; and every hash
matching `^0x[0-9a-fA-F]{64}$` passes that validation (though some
non-matching strings pass it as well). -/
theorem C1_validation_behavior (config : Config) (args : Args) (env : MainEnv)
    (h1 : (lookupKey config.solana args.network).isSome = true) :
    (validTxHash args.tx_hash = false →
      main_run config args env =
        ⟨1, [], [args.tx_hash, "Invalid transaction hash"], [], [], none, none, none⟩) ∧
    (specHashPattern args.tx_hash = true → validTxHash args.tx_hash = true) := by
  refine ⟨fun hv => ?_, fun hp => validTxHash_of_specPattern args.tx_hash hp⟩
  have h1f := isNone_false_of_isSome _ h1
  simp [main_run, h1f, hv]

/-- C1 witness: instantiation at a malformed hash with a configured
network. -/
theorem C1_validation_behavior_witness :
    (validTxHash "xyz" = false →
      main_run cfgOneOp ⟨"mainnet", "xyz", false⟩ envNoneExist =
        ⟨1, [], ["xyz", "Invalid transaction hash"], [], [], none, none, none⟩) ∧
    (specHashPattern "xyz" = true → validTxHash "xyz" = true) :=
  C1_validation_behavior cfgOneOp ⟨"mainnet", "xyz", false⟩ envNoneExist (by decide)

/-- C2 counterexample: with two endpoints both reporting the receipt, the
debugger is invoked with the URL of the second (last) endpoint, not the
first. -/
theorem C2_counterexample_two_endpoints :
    envAllExist.receiptExists "u1" = true ∧
    (main_run cfgTwoOps argsValid envAllExist).receipt_operator = some "op2" ∧
    NetCall.debugCall "u2" "sol" ∈ (main_run cfgTwoOps argsValid envAllExist).calls ∧
    NetCall.debugCall "u1" "sol" ∉ (main_run cfgTwoOps argsValid envAllExist).calls :=
  ⟨by decide, by decide, by decide, by decide⟩

/-- C2 (amended): when at least one configured endpoint reports the receipt,
the Cross-Chain Debugger is invoked with the URL of the last endpoint (in
configuration iteration order) that reported the receipt — the loop
accumulator is overwritten on every hit. -/
theorem C2_last_reporting_endpoint (config : Config) (args : Args) (env : MainEnv)
    (n u : String)
    (hnd : (config.rpc.map Prod.fst).Nodup)
    (h1 : (lookupKey config.solana args.network).isSome = true)
    (h2 : validTxHash args.tx_hash = true)
    (h3 : ∃ p ∈ config.rpc, env.txExists p.2 = true)
    (h4 : (config.rpc.filter fun p => env.receiptExists p.2).getLast? = some (n, u)) :
    (main_run config args env).receipt_operator = some n ∧
    NetCall.debugCall u ((lookupKey config.solana args.network).getD "")
      ∈ (main_run config args env).calls := by
  have h1f := isNone_false_of_isSome _ h1
  obtain ⟨q, hq, hfold⟩ := foldl_overwrite_of_exists (fun p => env.txExists p.2) config.rpc h3
  have hrfold : config.rpc.foldl
      (fun acc p => if env.receiptExists p.2 then some p.1 else acc) none = some n := by
    rw [foldl_overwrite, h4]
    rfl
  have hmem : (n, u) ∈ config.rpc :=
    (List.mem_filter.mp (List.mem_of_getLast?_eq_some h4)).1
  have hlook : lookupKey config.rpc n = some u := by
    unfold lookupKey
    rw [find?_eq_of_nodup_keys config.rpc n u hnd hmem]
    rfl
  simp [main_run, h1f, h2, hfold, hrfold, hlook]

/-- C2 witness: instantiation at two endpoints that both report the
receipt. -/
theorem C2_last_reporting_endpoint_witness :
    (cfgTwoOps.rpc.map Prod.fst).Nodup ∧
    validTxHash argsValid.tx_hash = true ∧
    (∃ p ∈ cfgTwoOps.rpc, envAllExist.txExists p.2 = true) ∧
    (cfgTwoOps.rpc.filter fun p => envAllExist.receiptExists p.2).getLast? = some ("op2", "u2") ∧
    ((main_run cfgTwoOps argsValid envAllExist).receipt_operator = some "op2" ∧
     NetCall.debugCall "u2" ((lookupKey cfgTwoOps.solana argsValid.network).getD "")
       ∈ (main_run cfgTwoOps argsValid envAllExist).calls) :=
  ⟨by decide, by decide, ⟨("op1", "u1"), by decide, rfl⟩, by decide,
    C2_last_reporting_endpoint cfgTwoOps argsValid envAllExist "op2" "u2" (by decide)
      (by decide) (by decide) ⟨("op1", "u1"), by decide, rfl⟩ (by decide)⟩

/-- C9: once the receipt-verification phase runs, the per-endpoint console
line is `<endpoint>: Exist` for every configured endpoint regardless of the
check's boolean result, because the second reassignment tests the truthiness
of an already non-empty string. -/
theorem C9_receipt_lines_always_exist (config : Config) (args : Args) (env : MainEnv)
    (h1 : (lookupKey config.solana args.network).isSome = true)
    (h2 : validTxHash args.tx_hash = true)
    (h3 : ∃ p ∈ config.rpc, env.txExists p.2 = true) :
    (main_run config args env).receiptLines = config.rpc.map fun p => (p.1, "Exist") := by
  have h1f := isNone_false_of_isSome _ h1
  obtain ⟨q, hq, hfold⟩ := foldl_overwrite_of_exists (fun p => env.txExists p.2) config.rpc h3
  have hlines : (config.rpc.map fun p =>
      (p.1, if pyStrTruthy (if env.receiptExists p.2 then "Exist" else "Not exist")
        then "Exist" else "Not exist"))
      = config.rpc.map fun p => (p.1, "Exist") := by
    apply List.map_congr_left
    intro p _
    cases henv : env.receiptExists p.2 <;> rfl
  simp only [main_run, h1f, h2, hfold]
  cases hrf : config.rpc.foldl
      (fun acc p => if env.receiptExists p.2 then some p.1 else acc) none <;>
    simpa [hrf] using hlines

/-- C9 witness: instantiation at a run that reaches the receipt phase; the
receipt lines all read `Exist` even when no endpoint actually had the
receipt. -/
theorem C9_receipt_lines_always_exist_witness :
    (∃ p ∈ cfgTwoOps.rpc, envTxOnly.txExists p.2 = true) ∧
    (main_run cfgTwoOps argsValid envTxOnly).receiptLines
      = cfgTwoOps.rpc.map fun p => (p.1, "Exist") :=
  ⟨⟨("op1", "u1"), by decide, rfl⟩,
    C9_receipt_lines_always_exist cfgTwoOps argsValid envTxOnly (by decide) (by decide)
      ⟨("op1", "u1"), by decide, rfl⟩⟩

end CheckTx
